import Mathlib

/-!
Verification of the Appomata reactive finite-state-automata engine
(src/webpack.config.js).

The JavaScript source is shallowly embedded: dynamic values become `JSVal`,
exceptions become `Except JSErr` (and the distinguished results `STRes` /
`ATRes` for the two `transit` functions, which also have a divergence
outcome), and the mutable module-level closures (`states`,
`automataEventBus`, `allTomata`, `connectedApps`, `names`) become explicit
pieces of state threaded through the operations.  `async` handler calls
whose promise is dropped by the source are modelled by running the call and
discarding its result (the engine is single threaded, and the dropped calls
in the source either have no persistent effect or fail before mutating).

Emissions on the shared event bus and `cleanUp` invocations are recorded in
an explicit trace (`TraceEv`), so that "a notification was emitted" and
"the hook ran" are observable propositions.
-/

/-- A JavaScript runtime value, as far as the engine manipulates them:
`undefined`, strings, numbers and plain objects (insertion-ordered field
lists).  Functions are kept out of `JSVal`; the places where the source
stores functions (action tables, the event bus) are modelled separately. -/
inductive JSVal where
  | undefined
  | str (s : String)
  | num (n : Int)
  | obj (fields : List (String × JSVal))

/-- A JavaScript exception as observed by the engine: an explicit
`throw "message"`, a `TypeError` (property access / call / assignment on a
non-object), or a failed `assert` from the helpers module. -/
inductive JSErr where
  | thrown (msg : String)
  | typeError
  | assertFail (msg : String)
  deriving DecidableEq

/-- Lookup in a JS-object-like association list (first hit wins; in the
engine every key is written at most once per list). -/
def lookupReg {α : Type} : List (String × α) → String → Option α
  | [], _ => none
  | (k, v) :: rest, n => if k = n then some v else lookupReg rest n

/-- JS property assignment on an association list: replace in place if the
key exists, append otherwise. -/
def insertReg {α : Type} : List (String × α) → String → α → List (String × α)
  | [], k, v => [(k, v)]
  | (k2, v2) :: rest, k, v =>
      if k2 = k then (k, v) :: rest else (k2, v2) :: insertReg rest k v

/-- Property read on a `JSVal` (`v[k]`): reading from `undefined` throws a
TypeError, reading a missing field of an object yields `undefined`,
reading any field of a primitive yields `undefined`. -/
def jsGetField : JSVal → String → Except JSErr JSVal
  | .undefined, _ => .error .typeError
  | .obj fs, k => .ok ((lookupReg fs k).getD .undefined)
  | .str _, _ => .ok .undefined
  | .num _, _ => .ok .undefined

/-- Non-throwing field lookup on a `JSVal`, used to state properties about
object-shaped outputs. -/
def jsField : JSVal → String → Option JSVal
  | .obj fs, k => lookupReg fs k
  | _, _ => none

/-- JS truthiness for the values `JSVal` covers. -/
def jsFalsy : JSVal → Bool
  | .undefined => true
  | .str s => s == ""
  | .num n => n == 0
  | .obj _ => false

/-- `v || {}` as used on `omega.output` in `Automata.transit`. -/
def orEmptyObj (v : JSVal) : JSVal := if jsFalsy v then .obj [] else v

/-- Strict-mode property assignment `v[k] = x`: succeeds only on objects
(the file is an ES module, hence strict mode: assigning to a property of a
primitive throws a TypeError, signalled here by `none`). -/
def setField : JSVal → String → JSVal → Option JSVal
  | .obj fs, k, v => some (.obj (insertReg fs k v))
  | _, _, _ => none

/-- Total variant of `setField` for receivers already known to be objects
(other receivers are returned unchanged; that case is unreachable where it
is used). -/
def setFieldD : JSVal → String → JSVal → JSVal
  | .obj fs, k, v => .obj (insertReg fs k v)
  | w, _, _ => w

/-- A View instance as created by `Appomata.createView` (the render
function itself and `cachedNodes` are not carried: no verified property
reads them).  `states` and `automatas` are the reciprocal-association sets,
`automata` the optional fixed binding passed at creation. -/
structure ViewObj where
  name : String
  states : List String
  automatas : List String
  automata : Option String

/-- The `{message, from}` record the built-in `failed` action stores in
`buffer.failedOutput` (`from` is a Lean keyword, hence `fromV`). -/
structure FailedOutput where
  message : JSVal
  fromV : JSVal

/-- The automaton's private buffer.  `failedOutput` is the field the
built-in failure-recovery actions read and write; `fields` carries any
other properties user handlers store on the buffer object. -/
structure Buffer where
  failedOutput : Option FailedOutput := none
  fields : List (String × JSVal) := []

/-- JSON-ish rendering of the buffer, used where the source passes the
buffer object itself as a value (`omega.output.buffer`, spread of the
loaded delta). -/
def bufferToJS (b : Buffer) : JSVal :=
  .obj ((match b.failedOutput with
         | some fo => [("failedOutput", .obj [("message", fo.message), ("from", fo.fromV)])]
         | none => []) ++ b.fields)

/-- An Omega transition result, `Appomata.createOmega(next, output, views,
context)`.  `next` is the name of the requested next state, `output` the
caller-visible payload, `views` is populated by the automaton with the new
current state's attached views. -/
structure Omega where
  next : String
  output : JSVal
  views : List ViewObj
  context : JSVal

/-- The delta object as seen by `State.transit`.  A proper loaded delta
(built by `Automata.transit`) has `action`/`fromName`/`ctx` set and
`bufferIsLive = true`, meaning `delta.buffer` aliases the automaton's live
buffer.  The string `"failed"` that `Automata.transit`'s catch block passes
as a delta is modelled by the all-`none` record (every property access on a
string primitive yields `undefined`), with `bufferIsLive = false`. -/
structure DeltaV where
  action : Option String
  input : JSVal
  fromName : Option String
  bufferIsLive : Bool
  ctx : Option JSVal

/-- An action handler: an async function of the delta that may read and
replace the shared buffer, and resolves with an Omega or rejects. -/
abbrev Handler := DeltaV → Buffer → Except JSErr (Omega × Buffer)

/-- A State of the automaton.  The constructor stores `name`, `local`
(`localData` here: `local` is a Lean keyword), `views`, and installs every
configured action as an own property via `defineAction`; `automata` is
stamped on by `Automata.addState`. -/
structure State where
  name : String
  localData : JSVal
  automata : Option String
  views : List (String × ViewObj)
  actions : List (String × Handler)

/-- What `this[p]` can resolve to on a State instance: an installed action
handler, a string-valued field (`name`, `automata`), an object-valued field
(`local`, `views`), one of the prototype methods, or `undefined`.
(Members inherited from `Object.prototype` are outside the model.) -/
inductive PropVal where
  | handler (h : Handler)
  | strField (s : String)
  | objField
  | mTransit
  | mFailed
  | mDefineAction
  | mAddView
  | mCleanUp
  | undefProp

/-- The own properties and prototype members of a State, in the order
`this[p]` resolves them.  Actions are installed as own properties by
`defineAction` after the constructor stored the plain fields, so an action
shadows a same-named field or prototype method. -/
def jsGetProp (st : State) (p : String) : PropVal :=
  match lookupReg st.actions p with
  | some h => .handler h
  | none =>
    if p = "name" then .strField st.name
    else if p = "automata" then
      (match st.automata with
       | some s => .strField s
       | none => .undefProp)
    else if p = "local" then .objField
    else if p = "views" then .objField
    else if p = "transit" then .mTransit
    else if p = "failed" then .mFailed
    else if p = "defineAction" then .mDefineAction
    else if p = "addView" then .mAddView
    else if p = "cleanUp" then .mCleanUp
    else .undefProp

/-- The built-in member names of a State, i.e. the keys `jsGetProp` can
resolve without an installed action. -/
def stateMemberNames : List String :=
  ["name", "automata", "local", "views", "transit", "failed", "defineAction",
   "addView", "cleanUp"]

/-- JS property-key coercion of `delta.action`: an absent action reads as
the key `"undefined"`. -/
def jsKey (o : Option String) : String := o.getD "undefined"

/-- Rendering of an `Option String` as the JS value it stands for. -/
def optStrToVal : Option String → JSVal
  | some s => .str s
  | none => .undefined

/-- The spread `{...delta}` of a loaded delta (its `action`, `input`,
`from`, `context` and `buffer` properties).  For the string-delta case the
real spread would yield the character properties of `"failed"`; the result
of that call is discarded by the source, so the `none`-field rendering is
used there. -/
def spreadDelta (d : DeltaV) (buf : Buffer) : List (String × JSVal) :=
  [("action", optStrToVal d.action), ("input", d.input),
   ("from", optStrToVal d.fromName)]
  ++ (match d.ctx with | some c => [("context", c)] | none => [])
  ++ (if d.bufferIsLive then [("buffer", bufferToJS buf)] else [])

/-- The prototype `failed` method of `State`:
`Appomata.createOmega("failed", {name: this.name, ...delta})`. -/
def protoFailedOmega (st : State) (d : DeltaV) (buf : Buffer) : Omega :=
  { next := "failed",
    output := .obj (("name", .str st.name) :: spreadDelta d buf),
    views := [], context := .obj [] }

/-- Result of `State.transit`: resolve with an Omega (and the possibly
updated buffer), reject with an error, or never resolve (the dispatch
`this[delta.action]` can reach `State.transit` itself, which recurses on
the identical delta forever). -/
inductive STRes where
  | ok (om : Omega) (buf : Buffer)
  | err (e : JSErr)
  | diverge

/-- The `|| this.failed(delta)` fallback of `State.transit`: `this.failed`
is the own action named `"failed"` when one is installed (it shadows the
prototype method), otherwise the prototype method. -/
def State.fallbackFailed (st : State) (d : DeltaV) (buf : Buffer) : STRes :=
  match lookupReg st.actions "failed" with
  | some h =>
    match h d buf with
    | .ok (om, b) => .ok om b
    | .error e => .err e
  | none => .ok (protoFailedOmega st d buf) buf

/-- `State.transit(delta)`:
`return (this[delta.action] && await this[delta.action](delta)) || this.failed(delta)`.
A handler resolves or rejects; a truthy non-callable member (a non-empty
string field, `local`, `views`) throws a TypeError when called; the empty
string is falsy and falls through to the fallback; `transit` itself
recurses forever; `failed` returns the prototype Omega (truthy);
`defineAction` and `cleanUp` return `undefined` (falsy) and fall through;
`addView` throws (it calls `.add` on `delta.states`, which is undefined);
an undefined member is falsy and falls through. -/
def State.transit (st : State) (d : DeltaV) (buf : Buffer) : STRes :=
  match jsGetProp st (jsKey d.action) with
  | .handler h =>
    (match h d buf with
     | .ok (om, b) => .ok om b
     | .error e => .err e)
  | .strField s => if s = "" then st.fallbackFailed d buf else .err .typeError
  | .objField => .err .typeError
  | .mTransit => .diverge
  | .mFailed => .ok (protoFailedOmega st d buf) buf
  | .mDefineAction => st.fallbackFailed d buf
  | .mAddView => .err .typeError
  | .mCleanUp => st.fallbackFailed d buf
  | .undefProp => st.fallbackFailed d buf

/-- A subscriber on an event bus.  `external` stands for an opaque listener
function supplied by user code; `appNotifier n` is the closure that
`createAutomata(n)` registers, which forwards the event to every App in
`connectedApps[n]`. -/
inductive Listener where
  | external (id : Nat)
  | appNotifier (autName : String)
  deriving DecidableEq

/-- Modelled from the spec: `EventBus` is imported from `./helpers`, which
is not under src/.  Per the spec the publish/subscribe bus is an external
collaborator that is used, not built here: `on(event, listener)` subscribes
the listener, and emitting an event invokes every listener subscribed to it
in subscription order.  A bus is its subscription list. -/
abbrev Bus := List (String × Listener)

/-- Modelled from the spec: subscription on the helpers `EventBus` —
appends the listener for the event. -/
def busOn (b : Bus) (ev : String) (l : Listener) : Bus := b ++ [(ev, l)]

/-- Modelled from the spec: the listeners the helpers `EventBus` invokes,
in order, when `ev` is emitted. -/
def busListenersFor : Bus → String → List Listener
  | [], _ => []
  | (e, l) :: rest, ev =>
      if e = ev then l :: busListenersFor rest ev else busListenersFor rest ev

/-- One observable step of a `transit` call: an emission on the shared
`automataEventBus`, or an invocation of a state's `cleanUp` hook. -/
inductive TraceEv where
  | emit (ev : String)
  | cleanUpCall (stName : String)
  deriving DecidableEq

/-- The event names of the emissions in a trace, in order. -/
def emittedEvents : List TraceEv → List String
  | [] => []
  | .emit ev :: rest => ev :: emittedEvents rest
  | .cleanUpCall _ :: rest => emittedEvents rest

/-- The listeners invoked over the course of a trace: for every emission,
the bus subscribers of that event. -/
def invokedListeners (bus : Bus) (tr : List TraceEv) : List Listener :=
  (emittedEvents tr).flatMap (fun ev => busListenersFor bus ev)

/-- The module-level `states` table of the `Automata` closure — shared by
every `Automata` instance — mapping state names to the registered State
objects. -/
abbrev StateTab := List (String × State)

/-- An `Automata` instance: its fields `name`, `now` (the current State,
null before `init`), `initialState`, `buffer`, `context`.  The `states`
table and the event bus live in the module closure and are passed
separately.  (`_beObservable`, which wraps `context` in a change-observing
proxy, is not modelled: no verified property mutates the context.) -/
structure Automata where
  name : String
  now : Option State
  initialState : Option String
  buffer : Buffer
  context : JSVal

/-- `this.on = automataEventBus.on`: the `on` method of every instance is
the single closure-scoped bus's subscribe, regardless of the instance. -/
def Automata.on (_a : Automata) (b : Bus) (ev : String) (l : Listener) : Bus :=
  busOn b ev l

/-- `this.off = automataEventBus.on`: `off` is assigned the very same
function as `on`. -/
def Automata.off : Automata → Bus → String → Listener → Bus := Automata.on

/-- `Automata.addState(state)` on the shared `states` table: a no-op when
the name is already registered; otherwise stamps the automaton name onto
the state and each of its views and appends it. -/
def bindAutomata (aut : String) (s : State) : State :=
  { s with automata := some aut,
           views := s.views.map (fun p => (p.1, { p.2 with automata := some aut })) }

def Automata.addState (a : Automata) (tab : StateTab) (s : State) : StateTab :=
  match lookupReg tab s.name with
  | some _ => tab
  | none => tab ++ [(s.name, bindAutomata a.name s)]

/-- `Automata.init(initState)`: sets `initialState` and `now` from the
shared table, or throws. -/
def Automata.init (tab : StateTab) (a : Automata) (s : String) : Except JSErr Automata :=
  match lookupReg tab s with
  | some st => .ok { a with initialState := some s, now := some st }
  | none => .error (.thrown "given state doesnt exists")

/-- A transition request as passed to `Automata.transit`
(`Appomata.createDelta(action, input)`; the `from` field is overwritten by
`transit` before anything reads it). -/
structure Delta where
  action : String
  input : JSVal

/-- The loaded delta `{...delta, context: this.context, buffer: this.buffer}`
built by `Automata.transit` after recording `delta.from = this.now.name`. -/
def Automata.mkLoadedDelta (a : Automata) (cur : State) (d : Delta) : DeltaV :=
  { action := some d.action, input := d.input, fromName := some cur.name,
    bufferIsLive := true, ctx := some a.context }

/-- The string `"failed"` that the catch block of `Automata.transit` passes
to `State.transit` in place of a delta: every property access on it yields
`undefined`, and its `buffer` property is not the live buffer. -/
def strFailedDelta : DeltaV :=
  { action := none, input := .undefined, fromName := none, bufferIsLive := false,
    ctx := none }

/-- The un-awaited `this.now.transit("failed", {...loadedDelta, e})` of the
catch block: the call runs for its buffer effect only, its result and any
rejection are dropped.  (With the string delta the built-in capturing
handler fails before mutating, so in practice the buffer is unchanged.) -/
def discardedFailedCall (cur : State) (buf : Buffer) : Buffer :=
  match State.transit cur strFailedDelta buf with
  | .ok _ b => b
  | _ => buf

/-- `states[omega.next] || states.init || states.failed` — note the literal
property name `init`, not the automaton's recorded `initialState`. -/
def fallbackLookup (tab : StateTab) (n : String) : Option State :=
  match lookupReg tab n with
  | some s => some s
  | none =>
    match lookupReg tab "init" with
    | some s => some s
    | none => lookupReg tab "failed"

/-- JSON deep snapshot of the context
(`JSON.parse(JSON.stringify(...))`); on function-free `JSVal` data this is
the identity. -/
def ctxSnapshot (v : JSVal) : JSVal := v

/-- Result of a whole `Automata.transit` call. -/
inductive ATRes where
  | ok (om : Omega)
  | err (e : JSErr)
  | diverge

/-- Whether an `ATRes` is a normal resolution. -/
def ATRes.isOk : ATRes → Bool
  | .ok _ => true
  | _ => false

/-- The `next` of a normal resolution. -/
def ATRes.nextOf : ATRes → Option String
  | .ok om => some om.next
  | _ => none

/-- Outcome of `Automata.transit`: the result, the instance afterwards
(mutations performed before a throw persist), and the observable trace. -/
structure TransitRes where
  res : ATRes
  auto : Automata
  trace : List TraceEv

/-- The body of `Automata.transit` once `this.now` is known to be set.
Success path: await the state's transit, run the previous state's
`cleanUp`, pick the new `now` through the fallback chain (throwing a
TypeError at `this.now.views` if the chain is empty), rebuild the omega
via `createOmega`, then `omega.output = omega.output || {}` and the
strict-mode assignments of `output.context` (deep snapshot) and
`output.buffer` (live reference), then emit `dataTransition` and
`afterTransition`.  Failure path: emit `failedTransition`, make the
un-awaited `this.now.transit("failed", ...)` call, run `cleanUp`, set
`now = states.failed` — and then throw a TypeError, because the local
`omega` was never assigned when `omega.views` is written. -/
def Automata.transitCore (tab : StateTab) (a : Automata) (cur : State) (d : Delta) :
    TransitRes :=
  match State.transit cur (Automata.mkLoadedDelta a cur d) a.buffer with
  | .diverge => ⟨.diverge, a, [.emit "beforeTransition"]⟩
  | .err _ =>
    ⟨.err .typeError,
     { a with now := lookupReg tab "failed",
              buffer := discardedFailedCall cur a.buffer },
     [.emit "beforeTransition", .emit "failedTransition", .cleanUpCall cur.name]⟩
  | .ok om buf1 =>
    match fallbackLookup tab om.next with
    | none =>
      ⟨.err .typeError, { a with now := none, buffer := buf1 },
       [.emit "beforeTransition", .cleanUpCall cur.name]⟩
    | some ns =>
      match setField (orEmptyObj om.output) "context" (ctxSnapshot a.context) with
      | none =>
        ⟨.err .typeError, { a with now := some ns, buffer := buf1 },
         [.emit "beforeTransition", .cleanUpCall cur.name]⟩
      | some o1 =>
        ⟨.ok { next := om.next,
               output := setFieldD o1 "buffer" (bufferToJS buf1),
               views := ns.views.map Prod.snd,
               context := .obj [] },
         { a with now := some ns, buffer := buf1 },
         [.emit "beforeTransition", .cleanUpCall cur.name,
          .emit "dataTransition", .emit "afterTransition"]⟩

/-- `Automata.transit(delta)`: throws if `now` is unset, otherwise runs the
protocol of `transitCore`. -/
def Automata.transit (tab : StateTab) (a : Automata) (d : Delta) : TransitRes :=
  match a.now with
  | none => ⟨.err (.thrown "Current state is not set up"), a, []⟩
  | some cur => Automata.transitCore tab a cur d

/-- JS truthiness of a resolved State property, for the
`if (this.now[action])` guard of `tryTransit`. -/
def propTruthy : PropVal → Bool
  | .handler _ => true
  | .strField s => !(s == "")
  | .objField => true
  | .undefProp => false
  | _ => true

/-- `Automata.tryTransit({input, action})`: throws a TypeError when `now`
is null (`this.now[action]` on null); otherwise, when the current state has
a truthy `action` property, fires `transit` (async, un-awaited: its
rejection is dropped but its state effects persist) and returns true;
returns false otherwise. -/
def Automata.tryTransit (tab : StateTab) (a : Automata) (action : String)
    (input : JSVal) : Except JSErr (Bool × Automata) :=
  match a.now with
  | none => .error .typeError
  | some cur =>
    if propTruthy (jsGetProp cur (jsKey (some action))) then
      .ok (true, (Automata.transit tab a ⟨action, input⟩).auto)
    else
      .ok (false, a)

/-- The factory's module-level registries: `allTomata` (name → instance),
`connectedApps` (name → Set of connected App ids), and the `names` set the
view-uniqueness assert consults. -/
structure Factory where
  allTomata : List (String × Automata) := []
  connectedApps : List (String × List Nat) := []
  names : List String := []

/-- The built-in failure-recovery State injected by `createAutomata`, with
its two actions.  Modelled from the spec for the one name missing from
src/: the handlers call a free function `omega(next, output)` that is not
defined in the bundled source; per the spec `createOmega(next, output,
views = [], context = {})` is the canonical constructor, so `omega` is
modelled as `createOmega` with the defaults. -/
def failedActionHandler : Handler := fun d buf =>
  if d.bufferIsLive then
    match jsGetField d.input "message" with
    | .error e => .error e
    | .ok m =>
      match jsGetField d.input "from" with
      | .error e => .error e
      | .ok f =>
        .ok ({ next := "failed",
               output := .obj [("message", m), ("from", f)],
               views := [], context := .obj [] },
             { buf with failedOutput := some ⟨m, f⟩ })
  else .error .typeError

/-- The built-in `back` action: `omega(buffer.failedOutput.from, {})` —
throws when `failedOutput` was never recorded (or when the delta is not a
live one).  A non-string recorded origin is coerced the way a JS property
key would be. -/
def jsKeyOfVal : JSVal → String
  | .str s => s
  | .undefined => "undefined"
  | .num n => toString n
  | .obj _ => "object Object"

def backActionHandler : Handler := fun d buf =>
  if d.bufferIsLive then
    match buf.failedOutput with
    | none => .error .typeError
    | some fo =>
      .ok ({ next := jsKeyOfVal fo.fromV, output := .obj [],
             views := [], context := .obj [] }, buf)
  else .error .typeError

/-- The `"failed"` State passed to `addState` by `createAutomata`. -/
def failedStateDef : State :=
  { name := "failed", localData := .obj [], automata := none, views := [],
    actions := [("failed", failedActionHandler), ("back", backActionHandler)] }

/-- What `Appomata.createAutomata` produces and updates: the factory
registries, the shared states table, the shared bus, and the new
instance. -/
structure CreateRes where
  factory : Factory
  tab : StateTab
  bus : Bus
  automata : Automata

/-- `Appomata.createAutomata({name, context, buffer})`: constructs the
instance, registers it in `allTomata`, resets `connectedApps[name]`,
subscribes the App-notifying closure to `afterTransition` on the shared
bus, and injects the built-in `"failed"` State.  (The `states` constructor
argument is not modelled: passing a non-registered State through it crashes
in the source, because `states.forEach(this.addState)` invokes `addState`
with `this` undefined; no verified scenario uses it.) -/
def Appomata.createAutomata (f : Factory) (tab : StateTab) (bus : Bus)
    (name : String) (context : JSVal) (buffer : Buffer) : CreateRes :=
  let a : Automata :=
    { name := name, now := none, initialState := none, buffer := buffer,
      context := context }
  let f1 : Factory :=
    { f with allTomata := insertReg f.allTomata name a,
             connectedApps := insertReg f.connectedApps name [] }
  let bus1 := Automata.on a bus "afterTransition" (.appNotifier name)
  let tab1 := Automata.addState a tab failedStateDef
  ⟨f1, tab1, bus1, a⟩

/-- `Set.add` on `connectedApps[n]` (a no-op key miss cannot happen on the
paths `connect` takes, since `allTomata` and `connectedApps` are keyed
together). -/
def addApp : List (String × List Nat) → String → Nat → List (String × List Nat)
  | [], _, _ => []
  | (k, apps) :: rest, n, app =>
      if k = n then
        (k, if apps.contains app then apps else apps ++ [app]) :: rest
      else (k, apps) :: addApp rest n app

/-- `Appomata.connect({app, automatas})`: for each known automaton name,
adds the app to its connected set.  (The `app.ugly` back-reference is not
modelled: no verified property reads it.) -/
def Appomata.connect (f : Factory) (app : Nat) (autos : List String) : Factory :=
  autos.foldl
    (fun acc n =>
      match lookupReg acc.allTomata n with
      | some _ => { acc with connectedApps := addApp acc.connectedApps n app }
      | none => acc)
    f

/-- The connected App ids recorded for an automaton name. -/
def connectedAppsOf (f : Factory) (n : String) : List Nat :=
  (lookupReg f.connectedApps n).getD []

/-- The Apps whose `onTransition` runs over a trace: every emission invokes
its subscribers in order, and each `appNotifier n` subscriber notifies
every App in `connectedApps[n]`. -/
def appsNotified (f : Factory) (bus : Bus) (tr : List TraceEv) : List Nat :=
  (invokedListeners bus tr).flatMap
    (fun l => match l with
      | .appNotifier n => connectedAppsOf f n
      | .external _ => [])

/-- `Appomata.createView({name, render, automata})`.  Modelled from the
spec for the helper missing from src/: `assert(cond, msg)` from `./helpers`
throws the message when the condition is false.  The render function itself
is irrelevant to the verified properties, so only its presence is carried.
Note the returned factory: the source never adds the new name to `names`. -/
def Appomata.createView (f : Factory) (vname : String) (hasRender : Bool)
    (automataB : Option String) : Except JSErr (ViewObj × Factory) :=
  if f.names.contains vname then
    .error (.assertFail "Given name already assigned to another view")
  else if hasRender = false then
    .error (.assertFail "No render function is passed")
  else
    .ok ({ name := vname, states := [], automatas := [], automata := automataB }, f)

/-- The error `View.transit` throws when no transition matched. -/
def noTransitionMsg (autName action : String) : String :=
  "for given automata (" ++ autName ++ "), action (" ++ action ++
  ") there is no any defined transition"

/-- The `forEach` loop of `View.transit` over `Object.values(allTomata)`:
`transited = a.tryTransit(...)` — each iteration OVERWRITES `transited`
with the current automaton's answer, so only the last automaton asked
decides; an exception from `tryTransit` aborts the loop, keeping the
effects of the automata already processed. -/
def viewBroadcastGo (tab : StateTab) (action : String) (input : JSVal) :
    Bool → List Automata → (Except JSErr Bool) × List Automata
  | tr, [] => (.ok tr, [])
  | _tr, a :: rest =>
    match Automata.tryTransit tab a action input with
    | .error e => (.error e, a :: rest)
    | .ok (b, a2) =>
      let r := viewBroadcastGo tab action input b rest
      (r.1, a2 :: r.2)

/-- `View.transit({input, action, name, automata})`.  The target is the
named automaton when one is given (the call argument, defaulting to the
view's binding; the default parameter `""` is falsy), otherwise every
registered automaton in registration order.  Throws
`noTransitionMsg` when `transited` ends up false.  JS aliasing of the
registry entries is modelled by writing the updated instances back. -/
def View.transit (tab : StateTab) (reg : List (String × Automata)) (v : ViewObj)
    (action : String) (input : JSVal) (autoArg : Option String) :
    (Except JSErr Unit) × List (String × Automata) :=
  let chosen : Option String :=
    match autoArg with
    | some s => if s = "" then v.automata else some s
    | none => v.automata
  match chosen with
  | some n =>
    (match lookupReg reg n with
     | none => (.error (.thrown (noTransitionMsg n action)), reg)
     | some a =>
       match Automata.tryTransit tab a action input with
       | .error e => (.error e, reg)
       | .ok (b, a2) =>
         let reg2 := insertReg reg n a2
         if b then (.ok (), reg2)
         else (.error (.thrown (noTransitionMsg n action)), reg2))
  | none =>
    let r := viewBroadcastGo tab action input false (reg.map Prod.snd)
    let reg2 := (reg.map Prod.fst).zip r.2
    match r.1 with
    | .error e => (.error e, reg2)
    | .ok true => (.ok (), reg2)
    | .ok false => (.error (.thrown (noTransitionMsg "" action)), reg2)

/-- An App instance; its fields beyond `name` (layouts, components, vtrees)
belong to the rendering collaborator and are not modelled. -/
structure AppInst where
  name : String

/-- `this.on = appEventBus.on` — every App instance subscribes on the one
closure-scoped App bus. -/
def App.on (_a : AppInst) (b : Bus) (ev : String) (l : Listener) : Bus :=
  busOn b ev l

/-- `this.off = appEventBus.on`: `off` is assigned the very same function
as `on`. -/
def App.off : AppInst → Bus → String → Listener → Bus := App.on

/-! ### Concrete executions used by the counterexamples and failing runs -/

/-- A user action handler that always rejects (`throw "boom"`). -/
def throwingHandler : Handler := fun _ _ => .error (.thrown "boom")

/-- A user action handler that resolves with `createOmega(nxt, undefined)`. -/
def okHandler (nxt : String) : Handler := fun _ b =>
  .ok ({ next := nxt, output := .undefined, views := [], context := .obj [] }, b)

/-- A state `"s"` whose only action `"go"` rejects. -/
def stS : State :=
  { name := "s", localData := .obj [], automata := none, views := [],
    actions := [("go", throwingHandler)] }

/-- `createAutomata({name: "M"})` from empty registries. -/
def c1Create : CreateRes := Appomata.createAutomata {} [] [] "M" (.obj []) {}

def c1Tab : StateTab := Automata.addState c1Create.automata c1Create.tab stS

def c1A : Automata :=
  match Automata.init c1Tab c1Create.automata "s" with
  | .ok a => a
  | .error _ => c1Create.automata

/-- The failing transit of claims C1/C2: the `"go"` handler throws. -/
def c1Run : TransitRes := Automata.transit c1Tab c1A ⟨"go", .undefined⟩

/-- The follow-up `{action: "back"}` transit issued from the captured
failure. -/
def c2Run : TransitRes := Automata.transit c1Tab c1Run.auto ⟨"back", .undefined⟩

/-- The same `back` transit on an automaton whose buffer DOES carry a
recorded origin (what the capture was meant to produce). -/
def c2GoodRun : TransitRes :=
  Automata.transit c1Tab
    { c1Run.auto with
      buffer := { failedOutput := some ⟨.str "boom", .str "s"⟩, fields := [] } }
    ⟨"back", .undefined⟩

/-- A state `"start"` whose `"go"` action resolves to the unregistered
state name `"nowhere"`. -/
def stStart : State :=
  { name := "start", localData := .obj [], automata := none, views := [],
    actions := [("go", okHandler "nowhere")] }

def c3Create : CreateRes := Appomata.createAutomata {} [] [] "N" (.obj []) {}

def c3Tab : StateTab := Automata.addState c3Create.automata c3Create.tab stStart

def c3A : Automata :=
  match Automata.init c3Tab c3Create.automata "start" with
  | .ok a => a
  | .error _ => c3Create.automata

/-- The transit of claims C3/C6: handler resolves with an unregistered
`next` while the initial state is registered. -/
def c3Run : TransitRes := Automata.transit c3Tab c3A ⟨"go", .undefined⟩

/-- A handler installed under the name `"failed"` that resolves to a state
other than `"failed"`. -/
def elsewhereHandler : Handler := fun _ b =>
  .ok ({ next := "elsewhere", output := .undefined, views := [], context := .obj [] }, b)

/-- A state that defines an ordinary action named `"failed"`. -/
def stWeird : State :=
  { name := "w", localData := .obj [], automata := none, views := [],
    actions := [("failed", elsewhereHandler)] }

/-- A loaded delta carrying the unmatched action `"x"`. -/
def c7Delta : DeltaV :=
  { action := some "x", input := .undefined, fromName := some "w",
    bufferIsLive := true, ctx := some (.obj []) }

/-- A `"logout"` handler that records its execution on the buffer. -/
def logoutHandler : Handler := fun _ b =>
  .ok ({ next := "a1", output := .undefined, views := [], context := .obj [] },
       { b with fields := insertReg b.fields "loggedOut" (.str "yes") })

def stA1 : State :=
  { name := "a1", localData := .obj [], automata := none, views := [],
    actions := [("logout", logoutHandler)] }

def stB1 : State :=
  { name := "b1", localData := .obj [], automata := none, views := [],
    actions := [] }

def c4CreateA : CreateRes := Appomata.createAutomata {} [] [] "A" (.obj []) {}

def c4CreateB : CreateRes :=
  Appomata.createAutomata c4CreateA.factory c4CreateA.tab c4CreateA.bus "B"
    (.obj []) {}

def c4Tab : StateTab :=
  Automata.addState c4CreateB.automata
    (Automata.addState c4CreateA.automata c4CreateB.tab stA1) stB1

def c4A : Automata :=
  match Automata.init c4Tab c4CreateA.automata "a1" with
  | .ok a => a
  | .error _ => c4CreateA.automata

def c4B : Automata :=
  match Automata.init c4Tab c4CreateB.automata "b1" with
  | .ok a => a
  | .error _ => c4CreateB.automata

/-- The `allTomata` registry after both automata are created and
initialised (JS aliasing of the registry entries is made explicit). -/
def c4Reg : List (String × Automata) :=
  insertReg (insertReg c4CreateB.factory.allTomata "A" c4A) "B" c4B

def c4ViewObj : ViewObj :=
  { name := "v", states := [], automatas := [], automata := none }

/-- The broadcast `View.transit({action: "logout"})` of claim C4: A (first,
defines `logout`) then B (second, does not). -/
def c4Run : (Except JSErr Unit) × List (String × Automata) :=
  View.transit c4Tab c4Reg c4ViewObj "logout" .undefined none

/-- The `next` of a resolved `State.transit`, for stating claim results. -/
def stResNext : STRes → Option String
  | .ok om _ => some om.next
  | _ => none

/-- Whether a factory call resolved. -/
def exIsOk : Except JSErr (ViewObj × Factory) → Bool
  | .ok _ => true
  | .error _ => false

/-- First `createView({name: "v", render})` from a fresh factory. -/
def c5First : Except JSErr (ViewObj × Factory) :=
  Appomata.createView {} "v" true none

/-- Second `createView` with the same name, issued against the factory
state the first call left behind. -/
def c5Second : Except JSErr (ViewObj × Factory) :=
  match c5First with
  | .ok (_, f1) => Appomata.createView f1 "v" true none
  | .error e => .error e

/-- A loaded delta carrying the unmatched action `"zzz"` for the state
`"s"`. -/
def c7WitDelta : DeltaV :=
  { action := some "zzz", input := .undefined, fromName := some "s",
    bufferIsLive := true, ctx := some (.obj []) }

/-- The factory flow of claim C9: create automata `nA` then `nB`, register
an external listener for `afterTransition` through instance `nA`, and
connect an App to `nA` only.  Returns the final factory and bus. -/
def registerTwoAndListen (f0 : Factory) (tab0 : StateTab) (bus0 : Bus)
    (nA nB : String) (lid app : Nat) : Factory × Bus :=
  let r1 := Appomata.createAutomata f0 tab0 bus0 nA (.obj []) {}
  let r2 := Appomata.createAutomata r1.factory r1.tab r1.bus nB (.obj []) {}
  let bus3 := Automata.on r1.automata r2.bus "afterTransition" (.external lid)
  let f3 := Appomata.connect r2.factory app [nA]
  (f3, bus3)

/-! ### Helper lemmas about the registries, the bus and the protocol -/

theorem lookupReg_insertReg_self {α : Type} (r : List (String × α)) (k : String)
    (v : α) : lookupReg (insertReg r k v) k = some v := by
  induction r with
  | nil => simp [insertReg, lookupReg]
  | cons p rest ih =>
    obtain ⟨k2, v2⟩ := p
    by_cases h : k2 = k
    · simp [insertReg, h, lookupReg]
    · simp [insertReg, h, lookupReg, ih]

theorem lookupReg_insertReg_ne {α : Type} (r : List (String × α)) (k k2 : String)
    (v : α) (h : k ≠ k2) : lookupReg (insertReg r k2 v) k = lookupReg r k := by
  have hne : ¬(k2 = k) := fun hh => h hh.symm
  induction r with
  | nil => simp [insertReg, lookupReg, hne]
  | cons p rest ih =>
    obtain ⟨k3, v3⟩ := p
    by_cases h3 : k3 = k2
    · subst h3
      simp [insertReg, lookupReg, hne]
    · simp only [insertReg, if_neg h3, lookupReg]
      by_cases h4 : k3 = k
      · simp [h4]
      · simp [h4, ih]

theorem lookupReg_append_missing {α : Type} (r : List (String × α)) (k : String)
    (v : α) (h : lookupReg r k = none) : lookupReg (r ++ [(k, v)]) k = some v := by
  induction r with
  | nil => simp [lookupReg]
  | cons p rest ih =>
    obtain ⟨k2, v2⟩ := p
    by_cases h2 : k2 = k
    · simp [lookupReg, h2] at h
    · simp [lookupReg, h2] at h ⊢
      exact ih h

theorem lookupReg_addApp_self (r : List (String × List Nat)) (n : String)
    (app : Nat) :
    lookupReg (addApp r n app) n =
      (lookupReg r n).map (fun l => if l.contains app then l else l ++ [app]) := by
  induction r with
  | nil => simp [addApp, lookupReg]
  | cons p rest ih =>
    obtain ⟨k, apps⟩ := p
    by_cases h : k = n
    · simp [addApp, h, lookupReg]
    · simp [addApp, h, lookupReg, ih]

theorem mem_busListenersFor (bus : Bus) (ev : String) (l : Listener)
    (h : (ev, l) ∈ bus) : l ∈ busListenersFor bus ev := by
  induction bus with
  | nil => cases h
  | cons p rest ih =>
    obtain ⟨e, x⟩ := p
    rcases List.mem_cons.mp h with heq | hm
    · obtain ⟨he, hx⟩ := Prod.mk.injEq .. |>.mp heq.symm
      subst he; subst hx
      simp [busListenersFor]
    · by_cases he : e = ev
      · simp only [busListenersFor, if_pos he]
        exact List.mem_cons_of_mem _ (ih hm)
      · simp only [busListenersFor, if_neg he]
        exact ih hm

theorem mem_emittedEvents (tr : List TraceEv) (ev : String)
    (h : TraceEv.emit ev ∈ tr) : ev ∈ emittedEvents tr := by
  induction tr with
  | nil => cases h
  | cons t rest ih =>
    rcases List.mem_cons.mp h with heq | hm
    · rw [← heq]
      simp [emittedEvents]
    · cases t with
      | emit e2 =>
        simp only [emittedEvents]
        exact List.mem_cons_of_mem _ (ih hm)
      | cleanUpCall s =>
        simp only [emittedEvents]
        exact ih hm

theorem mem_invokedListeners (bus : Bus) (tr : List TraceEv) (ev : String)
    (l : Listener) (hev : TraceEv.emit ev ∈ tr)
    (hl : l ∈ busListenersFor bus ev) : l ∈ invokedListeners bus tr := by
  unfold invokedListeners
  exact List.mem_flatMap.mpr ⟨ev, mem_emittedEvents tr ev hev, hl⟩

theorem mem_appsNotified (f : Factory) (bus : Bus) (tr : List TraceEv)
    (n : String) (app : Nat)
    (hl : Listener.appNotifier n ∈ invokedListeners bus tr)
    (happ : app ∈ connectedAppsOf f n) : app ∈ appsNotified f bus tr := by
  unfold appsNotified
  exact List.mem_flatMap.mpr ⟨Listener.appNotifier n, hl, happ⟩

theorem fallback_hit (tab : StateTab) (n : String) (st : State)
    (h : lookupReg tab n = some st) : fallbackLookup tab n = some st := by
  unfold fallbackLookup
  rw [h]

theorem fallback_cases (tab : StateTab) (n : String) (st : State)
    (h : fallbackLookup tab n = some st) :
    lookupReg tab n = some st ∨ lookupReg tab "init" = some st ∨
      lookupReg tab "failed" = some st := by
  unfold fallbackLookup at h
  cases h1 : lookupReg tab n with
  | some s =>
    rw [h1] at h
    injection h with h2
    exact Or.inl (by rw [h2])
  | none =>
    rw [h1] at h
    cases h2 : lookupReg tab "init" with
    | some s =>
      rw [h2] at h
      injection h with h3
      exact Or.inr (Or.inl (by rw [h3]))
    | none =>
      rw [h2] at h
      exact Or.inr (Or.inr h)

/-- No-op case of `addState`: a registered name leaves the table
untouched. -/
theorem addState_noop (a : Automata) (tab : StateTab) (t : State) (v : State)
    (h : lookupReg tab t.name = some v) : Automata.addState a tab t = tab := by
  unfold Automata.addState
  rw [h]

/-- Inversion of a successful `Automata.transit`: `now` was set and the
call reduced to `transitCore` on the current state. -/
theorem transit_ok_inv (tab : StateTab) (a : Automata) (d : Delta) (om : Omega)
    (h : (Automata.transit tab a d).res = .ok om) :
    ∃ cur, a.now = some cur ∧
      Automata.transit tab a d = Automata.transitCore tab a cur d := by
  unfold Automata.transit at h ⊢
  cases hn : a.now with
  | none => rw [hn] at h; exact nomatch h
  | some cur => exact ⟨cur, rfl, rfl⟩

/-- Inversion of a successful `transitCore`: the handler resolved, the
fallback chain found a state, the strict-mode output assignment succeeded,
and the whole result has the success shape. -/
theorem transitCore_ok_inv (tab : StateTab) (a : Automata) (cur : State)
    (d : Delta) (om : Omega)
    (h : (Automata.transitCore tab a cur d).res = .ok om) :
    ∃ om0 buf1 ns o1,
      State.transit cur (Automata.mkLoadedDelta a cur d) a.buffer = .ok om0 buf1 ∧
      fallbackLookup tab om0.next = some ns ∧
      setField (orEmptyObj om0.output) "context" (ctxSnapshot a.context) = some o1 ∧
      Automata.transitCore tab a cur d =
        ⟨.ok { next := om0.next,
               output := setFieldD o1 "buffer" (bufferToJS buf1),
               views := ns.views.map Prod.snd, context := .obj [] },
         { a with now := some ns, buffer := buf1 },
         [.emit "beforeTransition", .cleanUpCall cur.name,
          .emit "dataTransition", .emit "afterTransition"]⟩ := by
  unfold Automata.transitCore at h
  cases hs : State.transit cur (Automata.mkLoadedDelta a cur d) a.buffer with
  | diverge =>
    rw [hs] at h
    dsimp only at h
    exact nomatch h
  | err e =>
    rw [hs] at h
    dsimp only at h
    exact nomatch h
  | ok om0 buf1 =>
    rw [hs] at h
    dsimp only at h
    cases hf : fallbackLookup tab om0.next with
    | none =>
      rw [hf] at h
      dsimp only at h
      exact nomatch h
    | some ns =>
      rw [hf] at h
      dsimp only at h
      cases hset : setField (orEmptyObj om0.output) "context" (ctxSnapshot a.context) with
      | none =>
        rw [hset] at h
        dsimp only at h
        exact nomatch h
      | some o1 =>
        refine ⟨om0, buf1, ns, o1, ?_, hf, hset, ?_⟩
        · rfl
        · unfold Automata.transitCore
          rw [hs]
          dsimp only
          rw [hf]
          dsimp only
          rw [hset]

/-- A transit that resolves emitted `afterTransition`. -/
theorem transit_ok_emits_afterTransition (tab : StateTab) (a : Automata)
    (d : Delta) (om : Omega) (h : (Automata.transit tab a d).res = .ok om) :
    TraceEv.emit "afterTransition" ∈ (Automata.transit tab a d).trace := by
  obtain ⟨cur, hn, heq⟩ := transit_ok_inv tab a d om h
  rw [heq] at h ⊢
  obtain ⟨om0, buf1, ns, o1, hs, hf, hset, hcore⟩ :=
    transitCore_ok_inv tab a cur d om h
  rw [hcore]
  exact List.mem_cons_of_mem _ (List.mem_cons_of_mem _
    (List.mem_cons_of_mem _ (List.mem_cons_self _ _)))

/-! ### The claims -/

/-- C1 (code bug, failing run): with state `"s"` whose `"go"` handler
throws, `transit({action: "go"})` does end with `current.name = "failed"`
and an emitted `failedTransition`, but `buffer.failedOutput` is never
written — the catch block passes the string `"failed"` to `State.transit`
instead of a delta invoking the capturing action — and the call itself then
rejects with a TypeError at `omega.views` (the local `omega` was never
assigned), instead of completing as the claim requires. -/
theorem c1_failure_capture_broken :
    c1Run.res = .err .typeError ∧
    (c1Run.auto.now.map State.name) = some "failed" ∧
    c1Run.trace = [.emit "beforeTransition", .emit "failedTransition",
                   .cleanUpCall "s"] ∧
    c1Run.auto.buffer.failedOutput = none :=
  ⟨rfl, rfl, rfl, rfl⟩

/-- C2 (code bug, failing run): after the captured failure of `c1Run`
(current is `"failed"`, `failedOutput` unrecorded), issuing
`{action: "back"}` does not restore state `"s"`: the `back` handler reads
`buffer.failedOutput.from` of `undefined` and rejects, so the automaton
stays in `"failed"` and the call rejects. -/
theorem c2_back_after_failure_broken :
    (c1Run.auto.now.map State.name) = some "failed" ∧
    c1Run.auto.buffer.failedOutput = none ∧
    c2Run.res = .err .typeError ∧
    (c2Run.auto.now.map State.name) = some "failed" ∧
    (c2Run.auto.now.map State.name) ≠ some "s" :=
  ⟨rfl, rfl, rfl, rfl, by decide⟩

/-- Supporting observation for C2: the `back` mechanism itself is sound —
when `buffer.failedOutput.from` HAS been recorded (here `"s"`), the same
`back` transit resolves and restores `current.name = "s"`.  The defect is
only that the capture path never records it. -/
theorem back_restores_when_origin_recorded :
    c2GoodRun.res.isOk = true ∧
    (c2GoodRun.auto.now.map State.name) = some "s" :=
  ⟨rfl, rfl⟩

/-- C3 (counterexample): automaton `"N"` was initialised to `"start"`
(registered), its handler resolves with the unregistered next `"nowhere"`,
and no state named `"init"` exists — yet the new current state is
`"failed"`, not the initial state `"start"` the claim predicts: the
fallback consults the literal property `states.init`, never
`initialState`. -/
theorem c3_counterexample :
    c3Run.res.nextOf = some "nowhere" ∧
    lookupReg c3Tab "nowhere" = none ∧
    lookupReg c3Tab "init" = none ∧
    c3Run.auto.initialState = some "start" ∧
    lookupReg c3Tab "start" = some (bindAutomata "N" stStart) ∧
    (c3Run.auto.now.map State.name) = some "failed" ∧
    (some "failed" : Option String) ≠ some "start" :=
  ⟨rfl, rfl, rfl, rfl, rfl, rfl, by decide⟩

/-- C3 (amended): when the action handler resolves with `om0`, the new
current state is `states[om0.next]`, else the state literally named
`"init"`, else `"failed"` (the recorded `initialState` is not consulted);
in particular a registered `next` becomes current, and the previous state's
`cleanUp` hook runs. -/
theorem c3_fallback_order (tab : StateTab) (a : Automata) (d : Delta)
    (cur : State) (om0 : Omega) (buf1 : Buffer)
    (hn : a.now = some cur)
    (hs : State.transit cur (Automata.mkLoadedDelta a cur d) a.buffer =
      .ok om0 buf1) :
    (Automata.transit tab a d).auto.now = fallbackLookup tab om0.next ∧
    TraceEv.cleanUpCall cur.name ∈ (Automata.transit tab a d).trace ∧
    (∀ st, lookupReg tab om0.next = some st →
      (Automata.transit tab a d).auto.now = some st) := by
  have heq : Automata.transit tab a d = Automata.transitCore tab a cur d := by
    unfold Automata.transit
    rw [hn]
  rw [heq]
  unfold Automata.transitCore
  rw [hs]
  dsimp only
  cases hf : fallbackLookup tab om0.next with
  | none =>
    refine ⟨rfl, ?_, ?_⟩
    · exact List.mem_cons_of_mem _ (List.mem_cons_self _ _)
    · intro st hst
      have hcontr := fallback_hit tab om0.next st hst
      rw [hf] at hcontr
      exact nomatch hcontr
  | some ns =>
    dsimp only
    cases hset : setField (orEmptyObj om0.output) "context" (ctxSnapshot a.context) with
    | none =>
      refine ⟨rfl, ?_, ?_⟩
      · exact List.mem_cons_of_mem _ (List.mem_cons_self _ _)
      · intro st hst
        have h2 := fallback_hit tab om0.next st hst
        rw [hf] at h2
        injection h2 with h3
        exact show some ns = some st by rw [h3]
    | some o1 =>
      refine ⟨rfl, ?_, ?_⟩
      · exact List.mem_cons_of_mem _ (List.mem_cons_self _ _)
      · intro st hst
        have h2 := fallback_hit tab om0.next st hst
        rw [hf] at h2
        injection h2 with h3
        exact show some ns = some st by rw [h3]

/-- C3 (witness): the amended statement evaluated on the concrete `c3Run`
scenario. -/
theorem c3_fallback_order_witness :
    (Automata.transit c3Tab c3A ⟨"go", .undefined⟩).auto.now =
      fallbackLookup c3Tab "nowhere" ∧
    TraceEv.cleanUpCall "start" ∈
      (Automata.transit c3Tab c3A ⟨"go", .undefined⟩).trace ∧
    (∀ st, lookupReg c3Tab "nowhere" = some st →
      (Automata.transit c3Tab c3A ⟨"go", .undefined⟩).auto.now = some st) :=
  c3_fallback_order c3Tab c3A ⟨"go", .undefined⟩ (bindAutomata "N" stStart)
    ⟨"nowhere", .undefined, [], .obj []⟩ {} rfl rfl

/-- C4 (code bug, failing run): broadcast `View.transit({action:"logout"})`
with automata A (defines `logout`, registered first) and B (does not,
second): A accepts and actually transits — its buffer records the handler
run and its current state is `"a1"` — yet the call throws
`NoMatchingTransitionError`, because each loop iteration overwrites
`transited` with the current automaton's answer and B answered false. -/
theorem c4_broadcast_overwrite_run :
    c4Run.1 = .error (.thrown (noTransitionMsg "" "logout")) ∧
    ((lookupReg c4Run.2 "A").map (fun x => x.buffer.fields)) =
      some [("loggedOut", .str "yes")] ∧
    ((lookupReg c4Run.2 "A").map (fun x => x.now.map State.name)) =
      some (some "a1") ∧
    ((lookupReg c4Run.2 "B").map (fun x => x.buffer.fields)) = some [] :=
  ⟨rfl, rfl, rfl, rfl⟩

/-- C5 (code bug, failing run): `createView({name: "v", render})` twice —
the second call succeeds, returning a second View and the factory state
unchanged, because `createView` never adds the name to the `names` set its
duplicate-check consults; the missing-render half of the claim does hold
(`assert(render !== undefined)` fires). -/
theorem c5_duplicate_view_accepted :
    c5First = .ok ({ name := "v", states := [], automatas := [],
                     automata := none }, {}) ∧
    c5Second = .ok ({ name := "v", states := [], automatas := [],
                      automata := none }, {}) ∧
    exIsOk c5Second = true ∧
    Appomata.createView {} "v" false none =
      .error (.assertFail "No render function is passed") :=
  ⟨rfl, rfl, rfl, rfl⟩

/-- C6 (counterexample): the concrete `c3Run` transit resolves (is a
successful transition) with `omega.next = "nowhere"`, which names no
registered state and is not `"failed"` — the returned `next` is the
handler's value echoed verbatim. -/
theorem c6_counterexample :
    c3Run.res.isOk = true ∧
    c3Run.res.nextOf = some "nowhere" ∧
    lookupReg c3Tab "nowhere" = none ∧
    ("nowhere" : String) ≠ "failed" :=
  ⟨rfl, rfl, rfl, by decide⟩

/-- C6 (amended): what IS invariant on success is the new current state,
not the returned `next`: every successful transit leaves `current` a state
drawn from the registered table, keyed by `omega.next`, `"init"` or
`"failed"`. -/
theorem c6_success_current_registered (tab : StateTab) (a : Automata)
    (d : Delta) (om : Omega)
    (h : (Automata.transit tab a d).res = .ok om) :
    ∃ st k, (Automata.transit tab a d).auto.now = some st ∧
      lookupReg tab k = some st ∧
      (k = om.next ∨ k = "init" ∨ k = "failed") := by
  obtain ⟨cur, hn, heq⟩ := transit_ok_inv tab a d om h
  rw [heq] at h ⊢
  obtain ⟨om0, buf1, ns, o1, hs, hf, hset, hcore⟩ :=
    transitCore_ok_inv tab a cur d om h
  rw [hcore] at h ⊢
  dsimp only at h
  injection h with h3
  have hnext : om.next = om0.next := by
    rw [← h3]
  rcases fallback_cases tab om0.next ns hf with hc | hc | hc
  · exact ⟨ns, om.next, rfl, by rw [hnext]; exact hc, Or.inl rfl⟩
  · exact ⟨ns, "init", rfl, hc, Or.inr (Or.inl rfl)⟩
  · exact ⟨ns, "failed", rfl, hc, Or.inr (Or.inr rfl)⟩

/-- C6 (witness): the amended statement evaluated on the concrete `c3Run`
scenario. -/
theorem c6_success_current_registered_witness :
    ∃ st k, (Automata.transit c3Tab c3A ⟨"go", .undefined⟩).auto.now = some st ∧
      lookupReg c3Tab k = some st ∧
      (k = "nowhere" ∨ k = "init" ∨ k = "failed") :=
  c6_success_current_registered c3Tab c3A ⟨"go", .undefined⟩
    ⟨"nowhere", .obj [("context", .obj []), ("buffer", .obj [])], [], .obj []⟩
    rfl

/-- C7 (counterexample): `stWeird` installs an ordinary action under the
name `"failed"`; on the unmatched action `"x"` the dispatch
`|| this.failed(delta)` invokes that action instead of the prototype
fallback, and `State.transit` resolves with `next = "elsewhere"`, not the
default Omega with `next = "failed"` the claim requires. -/
theorem c7_counterexample :
    lookupReg stWeird.actions "x" = none ∧
    stResNext (State.transit stWeird c7Delta {}) = some "elsewhere" ∧
    (some "elsewhere" : Option String) ≠ some "failed" :=
  ⟨rfl, rfl, by decide⟩

/-- C7 (amended): for a State that installs no action named `"failed"`,
and a delta whose action is neither an installed action nor one of the
State's built-in member names, `State.transit` resolves with the prototype
default Omega: `next = "failed"` and a payload `{name, ...delta}` whose
`action` field identifies the unmatched action. -/
theorem c7_unmatched_action_default (st : State) (d : DeltaV) (buf : Buffer)
    (aName : String) (hact : d.action = some aName)
    (h1 : lookupReg st.actions aName = none)
    (h2 : lookupReg st.actions "failed" = none)
    (h3 : aName ∉ stateMemberNames) :
    State.transit st d buf = .ok (protoFailedOmega st d buf) buf ∧
    (protoFailedOmega st d buf).next = "failed" ∧
    jsField (protoFailedOmega st d buf).output "action" = some (.str aName) := by
  simp only [stateMemberNames, List.mem_cons, List.not_mem_nil, or_false,
    not_or] at h3
  obtain ⟨hm1, hm2, hm3, hm4, hm5, hm6, hm7, hm8, hm9⟩ := h3
  refine ⟨?_, rfl, ?_⟩
  · have hkey : jsKey d.action = aName := by
      rw [hact]
      rfl
    unfold State.transit
    rw [hkey]
    unfold jsGetProp
    simp only [h1]
    rw [if_neg hm1, if_neg hm2, if_neg hm3, if_neg hm4, if_neg hm5, if_neg hm6,
        if_neg hm7, if_neg hm8, if_neg hm9]
    unfold State.fallbackFailed
    rw [h2]
  · have hv : optStrToVal d.action = .str aName := by
      rw [hact]
      rfl
    exact congrArg some hv

/-- C7 (witness): the amended statement evaluated on the state `"s"` and
the unmatched action `"zzz"`. -/
theorem c7_unmatched_action_default_witness :
    State.transit stS c7WitDelta {} =
      .ok (protoFailedOmega stS c7WitDelta {}) {} ∧
    (protoFailedOmega stS c7WitDelta {}).next = "failed" ∧
    jsField (protoFailedOmega stS c7WitDelta {}).output "action" =
      some (.str "zzz") :=
  c7_unmatched_action_default stS c7WitDelta {} "zzz" rfl rfl rfl (by decide)

/-- C8: `addState` is idempotent on the shared states table — a second
registration under an already-registered name is a no-op, leaving the whole
table (and hence the identity of the state object registered under that
name) unchanged. -/
theorem c8_addState_idempotent (a : Automata) (tab : StateTab) (s t : State)
    (h : t.name = s.name) :
    Automata.addState a (Automata.addState a tab s) t =
      Automata.addState a tab s ∧
    lookupReg (Automata.addState a (Automata.addState a tab s) t) s.name =
      lookupReg (Automata.addState a tab s) s.name := by
  have hv : ∃ v, lookupReg (Automata.addState a tab s) t.name = some v := by
    rw [h]
    unfold Automata.addState
    cases h0 : lookupReg tab s.name with
    | some v => exact ⟨v, h0⟩
    | none =>
      exact ⟨bindAutomata a.name s, lookupReg_append_missing tab s.name _ h0⟩
  obtain ⟨v, hv⟩ := hv
  have h1 : Automata.addState a (Automata.addState a tab s) t =
      Automata.addState a tab s := addState_noop a _ t v hv
  exact ⟨h1, by rw [h1]⟩

/-- C8 (witness): registering `stS` twice on an empty table through the
`"M"` automaton. -/
theorem c8_addState_idempotent_witness :
    Automata.addState c1Create.automata
        (Automata.addState c1Create.automata [] stS) stS =
      Automata.addState c1Create.automata [] stS ∧
    lookupReg (Automata.addState c1Create.automata
        (Automata.addState c1Create.automata [] stS) stS) stS.name =
      lookupReg (Automata.addState c1Create.automata [] stS) stS.name :=
  c8_addState_idempotent c1Create.automata [] stS stS rfl

/-- C10: `off` IS `on`, for Automata instances and for App instances
(`this.off = automataEventBus.on` / `= appEventBus.on`), so `off` appends
the handler as a new subscriber; and every modelled bus-touching operation
(`on`, `off`, the listener registration of `createAutomata`) only ever
appends — nothing unsubscribes. -/
theorem c10_off_registers :
    Automata.off = Automata.on ∧ App.off = App.on ∧
    (∀ (x : Automata) (b : Bus) (ev : String) (l : Listener),
       Automata.off x b ev l = b ++ [(ev, l)]) ∧
    (∀ (x : AppInst) (b : Bus) (ev : String) (l : Listener),
       App.off x b ev l = b ++ [(ev, l)]) ∧
    (∀ (f : Factory) (tab0 : StateTab) (b : Bus) (n : String) (c : JSVal)
       (buf : Buffer),
       ∃ t2, (Appomata.createAutomata f tab0 b n c buf).bus = b ++ t2) :=
  ⟨rfl, rfl, fun _ _ _ _ => rfl, fun _ _ _ _ => rfl,
   fun _ _ _ _ _ _ => ⟨_, rfl⟩⟩

/-- C9: every Automata instance aliases the one closure-scoped
`automataEventBus`: `on` does not depend on the instance at all; a listener
registered for `afterTransition` through instance `nA` is invoked whenever
ANY automaton — in particular the distinct instance the transit runs on —
completes a transition; and consequently an App connected only to `nA`
receives the `onTransition` notification for that transition. -/
theorem c9_shared_event_bus (f0 : Factory) (tab0 : StateTab) (bus0 : Bus)
    (nA nB : String) (lid app : Nat) (tab : StateTab) (b : Automata)
    (d : Delta) (om : Omega)
    (hne : nA ≠ nB)
    (hok : (Automata.transit tab b d).res = .ok om) :
    (∀ x y : Automata, Automata.on x = Automata.on y) ∧
    Listener.external lid ∈
      invokedListeners (registerTwoAndListen f0 tab0 bus0 nA nB lid app).2
        (Automata.transit tab b d).trace ∧
    app ∈ appsNotified (registerTwoAndListen f0 tab0 bus0 nA nB lid app).1
        (registerTwoAndListen f0 tab0 bus0 nA nB lid app).2
        (Automata.transit tab b d).trace := by
  have hafter := transit_ok_emits_afterTransition tab b d om hok
  have hbusEq : (registerTwoAndListen f0 tab0 bus0 nA nB lid app).2 =
      ((bus0 ++ [("afterTransition", Listener.appNotifier nA)])
        ++ [("afterTransition", Listener.appNotifier nB)])
        ++ [("afterTransition", Listener.external lid)] := rfl
  refine ⟨fun x y => rfl, ?_, ?_⟩
  · refine mem_invokedListeners _ _ "afterTransition" _ hafter ?_
    refine mem_busListenersFor _ _ _ ?_
    rw [hbusEq]
    simp
  · refine mem_appsNotified _ _ _ nA app ?_ ?_
    · refine mem_invokedListeners _ _ "afterTransition" _ hafter ?_
      refine mem_busListenersFor _ _ _ ?_
      rw [hbusEq]
      simp
    · unfold registerTwoAndListen Appomata.createAutomata Appomata.connect
      dsimp only [List.foldl]
      rw [lookupReg_insertReg_ne _ nA nB _ hne, lookupReg_insertReg_self]
      dsimp only
      unfold connectedAppsOf
      rw [lookupReg_addApp_self,
          lookupReg_insertReg_ne _ nA nB _ hne, lookupReg_insertReg_self]
      simp

/-- C9 (witness): two automata `"A"` and `"B"` created from empty
registries, an external listener registered through `"A"`, an App connected
to `"A"` only, and the completed `c3Run` transition. -/
theorem c9_shared_event_bus_witness :
    (∀ x y : Automata, Automata.on x = Automata.on y) ∧
    Listener.external 1 ∈
      invokedListeners (registerTwoAndListen {} [] [] "A" "B" 1 0).2
        (Automata.transit c3Tab c3A ⟨"go", .undefined⟩).trace ∧
    (0 : Nat) ∈ appsNotified (registerTwoAndListen {} [] [] "A" "B" 1 0).1
        (registerTwoAndListen {} [] [] "A" "B" 1 0).2
        (Automata.transit c3Tab c3A ⟨"go", .undefined⟩).trace :=
  c9_shared_event_bus {} [] [] "A" "B" 1 0 c3Tab c3A ⟨"go", .undefined⟩
    ⟨"nowhere", .obj [("context", .obj []), ("buffer", .obj [])], [], .obj []⟩
    (by decide) rfl
